import Mathlib

/-!
Nominatim geocoding client (`geocoder.go`).

A shallow embedding of the Go package `geocoder`: the client constructor
`NewGeocoder`, the URL builder `constructURL`, the two operations `Geocode` and
`Reverse`, and the HTTP helper `makeRequest`.

Conventions of the embedding.

* A Go `map[string]string` is an association list; a well-formed map has no
  repeated key. `range` over a map visits the entries in list order, and the
  theorems hold for every list, hence for every iteration order.
* `url.Values` is an association list from a key to its list of values.
* A Go `(T, error)` result is `Except GoError T`.
* The upstream service, the URL check of `http.NewRequest`, the JSON tokenizer
  and the `%f` verb of `fmt` are outside the package. They are the fields of
  `World`, and every theorem holds for every `World`.
* What `encoding/json` does with a parsed value is fixed by the `json` tags of
  `Location`; it is modelled by `decodeLocation` and `decodeLocations`.
* Every function that talks to the network returns, next to its result, the
  list of HTTP exchanges it issued.
-/

set_option maxRecDepth 16384

namespace Nominatim

/-! ## Constants -/

/-- Source `defaultNominatimDomain` (geocoder.go:14). -/
def defaultNominatimDomain : String := "nominatim.openstreetmap.org"

/-- Source `defaultUserAgent` (geocoder.go:15). -/
def defaultUserAgent : String := "geopy/1.0"

/-- Source `rejectedUserAgents` (geocoder.go:18-24). -/
def rejectedUserAgents : List String :=
  [ "my-application",
    "my_app/1",
    "my_user_agent/1.0",
    "specify_your_app_name_here",
    defaultUserAgent ]

/-- Go `time.Second`, in nanoseconds (`time.Duration` counts nanoseconds). -/
def timeSecond : Int := 1000000000

/-- Go `http.StatusOK`. -/
def httpStatusOK : Int := 200

/-! ## Errors -/

/-- The Go `error` values that can leave the package. `errorString` is a value
built in geocoder.go by `errors.New` or `fmt.Errorf` and carries its text; the
other constructors are error values handed over by the standard library. -/
inductive GoError where
  /-- Built by `errors.New` / `fmt.Errorf` in geocoder.go. -/
  | errorString (text : String)
  /-- Returned by `http.NewRequest` (the URL does not parse). -/
  | urlParse (detail : String)
  /-- Returned by `client.Do` (DNS, connection, timeout, ...). -/
  | transport (detail : String)
  /-- Returned by `io.ReadAll` on the response body. -/
  | bodyRead (detail : String)
  /-- A `*json.SyntaxError`: the body is not JSON. -/
  | jsonSyntax
  /-- A `*json.UnmarshalTypeError`: JSON of the wrong shape for the Go type. -/
  | jsonType
  deriving DecidableEq, Repr

deriving instance DecidableEq for Except

/-! ## Data model -/

/-- A Go `map[string]string` as an association list. -/
abbrev GoMap := List (String × String)

/-- Keys of a map. -/
def GoMap.keys (m : GoMap) : List String := m.map Prod.fst

/-- Map index expression `m[k]` with the comma-ok result. -/
def GoMap.get (m : GoMap) (k : String) : Option String :=
  match m with
  | [] => none
  | (k', v) :: rest => if k' = k then some v else GoMap.get rest k

/-- Source `Geocoder` (geocoder.go:27-35). -/
structure Geocoder where
  Domain : String
  UserAgent : String
  Scheme : String
  Timeout : Int
  Proxies : GoMap
  API : String
  ReverseAPI : String
  deriving DecidableEq, Repr

/-! ## Construction -/

/-- The loop of `NewGeocoder` over the rejected values (geocoder.go:51-55): the
error of the first entry equal to `userAgent`, if any. -/
def rejectedLoop (userAgent : String) : List String → Option GoError
  | [] => none
  | ua :: rest =>
    if userAgent = ua then
      some (.errorString
        ("using Nominatim with user agent " ++ userAgent ++ " is discouraged"))
    else rejectedLoop userAgent rest

/-- Source `NewGeocoder` (geocoder.go:46-68). -/
def NewGeocoder (userAgent : String) : Except GoError Geocoder :=
  if userAgent = "" then
    .error (.errorString "user agent is required")
  else
    match rejectedLoop userAgent rejectedUserAgents with
    | some err => .error err
    | none =>
      .ok
        { Domain := defaultNominatimDomain
          UserAgent := userAgent
          Scheme := "https"
          Timeout := 10 * timeSecond
          Proxies := []
          API := "https://" ++ defaultNominatimDomain ++ "/search"
          ReverseAPI := "https://" ++ defaultNominatimDomain ++ "/reverse" }

/-- A call returned no value and a non-nil error. -/
def Failed {α : Type} (r : Except GoError α) : Prop := ∃ e, r = .error e

/-- A call returned a value and a nil error. -/
def Succeeded {α : Type} (r : Except GoError α) : Prop := ∃ a, r = .ok a

/-! ## `net/url`: query values and their encoding -/

/-- Go `url.Values` (`map[string][]string`) as an association list. -/
abbrev Values := List (String × List String)

/-- Index expression `v[key]` with the comma-ok result. -/
def Values.lookup (v : Values) (key : String) : Option (List String) :=
  match v with
  | [] => none
  | (k, vs) :: rest => if k = key then some vs else Values.lookup rest key

/-- Go `Values.Set`: `v[key] = []string{value}`, replacing what was there. -/
def Values.Set (v : Values) (key value : String) : Values :=
  match v with
  | [] => [(key, [value])]
  | (k, vs) :: rest =>
    if k = key then (key, [value]) :: rest else (k, vs) :: Values.Set rest key value

/-- Keys of a `Values`. -/
def Values.keys (v : Values) : List String := v.map Prod.fst

/-- The UTF-8 bytes of a Go string, as numbers. -/
def utf8Bytes (s : String) : List Nat :=
  s.data.flatMap (fun c => (String.utf8EncodeChar c).map UInt8.toNat)

/-- Byte-wise lexicographic `<` on strings, the order of `sort.Strings`. -/
def bytesLt : List Nat → List Nat → Bool
  | _, [] => false
  | [], _ :: _ => true
  | a :: as, b :: bs => if a < b then true else if b < a then false else bytesLt as bs

/-- Insert a key into a list of keys sorted by `bytesLt`. -/
def insertKey (k : String) : List String → List String
  | [] => [k]
  | k' :: rest =>
    if bytesLt (utf8Bytes k') (utf8Bytes k) then k' :: insertKey k rest else k :: k' :: rest

/-- The keys in the order `Values.Encode` writes them. -/
def sortKeys : List String → List String
  | [] => []
  | k :: rest => insertKey k (sortKeys rest)

/-- Go `url.shouldEscape(c, encodeQueryComponent)`: everything but the
unreserved characters of RFC 3986 section 2.3 is escaped. -/
def shouldEscape (c : Nat) : Bool :=
  if (97 ≤ c ∧ c ≤ 122) ∨ (65 ≤ c ∧ c ≤ 90) ∨ (48 ≤ c ∧ c ≤ 57) then false
  else if c = 45 ∨ c = 95 ∨ c = 46 ∨ c = 126 then false
  else true

/-- Go `upperhex`. -/
def upperhex (n : Nat) : Char := "0123456789ABCDEF".data.getD n '0'

/-- One byte of `url.escape` in mode `encodeQueryComponent`. -/
def escapeByte (c : Nat) : List Char :=
  if shouldEscape c then
    if c = 32 then ['+'] else ['%', upperhex (c / 16), upperhex (c % 16)]
  else [Char.ofNat c]

/-- Go `url.QueryEscape`. -/
def QueryEscape (s : String) : String := ⟨(utf8Bytes s).flatMap escapeByte⟩

/-- Go `Values.Encode`: `key=value` pairs, keys sorted, joined by `&`. -/
def Values.Encode (v : Values) : String :=
  String.intercalate "&"
    ((sortKeys v.keys).flatMap (fun k =>
      ((v.lookup k).getD []).map (fun val => QueryEscape k ++ "=" ++ QueryEscape val)))

/-! ## `encoding/json`: values and decoding into `Location` -/

/-- A syntactically valid JSON text. Numbers keep their literal. -/
inductive JSON where
  | null
  | bool (b : Bool)
  | number (literal : String)
  | string (s : String)
  | array (elems : List JSON)
  | object (members : List (String × JSON))
  deriving Repr

/-- Source `Location` (geocoder.go:38-43). `AddressDetails` is `none` for a nil
map; its `interface{}` values are kept as the JSON they were decoded from. -/
structure Location where
  DisplayName : String
  Lat : String
  Lon : String
  AddressDetails : Option (List (String × JSON))
  deriving Repr

/-- The zero value of `Location`, what `var location Location` declares. -/
def Location.zero : Location :=
  { DisplayName := "", Lat := "", Lon := "", AddressDetails := none }

/-- The four fields of `Location` that carry a `json` tag. -/
inductive Field where
  | displayName | lat | lon | address
  deriving DecidableEq, Repr

/-- The `json` tag of a field (geocoder.go:39-42). -/
def Field.tag : Field → String
  | .displayName => "display_name"
  | .lat => "lat"
  | .lon => "lon"
  | .address => "address"

/-- All tagged fields in declaration order. -/
def Field.all : List Field := [.displayName, .lat, .lon, .address]

/-- Case folding of one rune as far as it can reach an ASCII letter: ASCII
upper case, the Kelvin sign (U+212A) and the long s (U+017F). -/
def foldRune (c : Char) : Char :=
  if 'A' ≤ c ∧ c ≤ 'Z' then Char.ofNat (c.toNat + 32)
  else if c.toNat = 0x212A then 'k'
  else if c.toNat = 0x017F then 's'
  else c

/-- Case folding of an object key. -/
def foldName (key : String) : String := ⟨key.data.map foldRune⟩

/-- The field an object key is stored into: the exact tag first, then the tag
equal under case folding; `none` for a key the struct does not know. -/
def fieldByName (key : String) : Option Field :=
  match Field.all.find? (fun f => f.tag = key) with
  | some f => some f
  | none => Field.all.find? (fun f => foldName f.tag = foldName key)

/-- Assignment `m[k] = x` on a decoded JSON object. -/
def setMember (m : List (String × JSON)) (k : String) (x : JSON) : List (String × JSON) :=
  match m with
  | [] => [(k, x)]
  | (k', x') :: rest => if k' = k then (k, x) :: rest else (k', x') :: setMember rest k x

/-- Decoding a JSON value into a Go `string` field: a string is stored, `null`
leaves the field as it is, anything else is a type error. -/
def storeString (v : JSON) (old : String) : Except GoError String :=
  match v with
  | .string s => .ok s
  | .null => .ok old
  | _ => .error .jsonType

/-- Decoding a JSON value into the `map[string]interface{}` field: an object
fills the map (made if nil), `null` sets it to nil, anything else is a type
error. -/
def storeMap (v : JSON) (old : Option (List (String × JSON))) :
    Except GoError (Option (List (String × JSON))) :=
  match v with
  | .object ms => .ok (some (ms.foldl (fun m kv => setMember m kv.1 kv.2) (old.getD [])))
  | .null => .ok none
  | _ => .error .jsonType

/-- Decoding the members of a JSON object into a `Location`, one after the
other. A key that names no field is skipped. -/
def decodeMembers : List (String × JSON) → Location → Except GoError Location
  | [], loc => .ok loc
  | (k, v) :: rest, loc =>
    match fieldByName k with
    | none => decodeMembers rest loc
    | some .displayName =>
      match storeString v loc.DisplayName with
      | .error e => .error e
      | .ok s => decodeMembers rest { loc with DisplayName := s }
    | some .lat =>
      match storeString v loc.Lat with
      | .error e => .error e
      | .ok s => decodeMembers rest { loc with Lat := s }
    | some .lon =>
      match storeString v loc.Lon with
      | .error e => .error e
      | .ok s => decodeMembers rest { loc with Lon := s }
    | some .address =>
      match storeMap v loc.AddressDetails with
      | .error e => .error e
      | .ok m => decodeMembers rest { loc with AddressDetails := m }

/-- Decoding a JSON value into a `Location` variable holding `loc`. -/
def decodeLocation (j : JSON) (loc : Location) : Except GoError Location :=
  match j with
  | .object ms => decodeMembers ms loc
  | .null => .ok loc
  | _ => .error .jsonType

/-- Decoding the elements of a JSON array into fresh `Location`s. -/
def decodeElems : List JSON → Except GoError (List Location)
  | [] => .ok []
  | e :: rest =>
    match decodeLocation e Location.zero with
    | .error err => .error err
    | .ok l =>
      match decodeElems rest with
      | .error err => .error err
      | .ok ls => .ok (l :: ls)

/-- Decoding a JSON value into a nil `[]Location`. -/
def decodeLocations (j : JSON) : Except GoError (List Location) :=
  match j with
  | .array es => decodeElems es
  | .null => .ok []
  | _ => .error .jsonType

/-! ## The world outside the package -/

/-- A Go `float64`, by its IEEE 754 bit pattern. -/
structure Float64 where
  bits : Nat
  deriving DecidableEq, Repr

/-- Go `[]byte`. -/
abbrev Bytes := List Nat

/-- Go `http.Transport`, as far as proxies go: an explicit proxy table. -/
structure Transport where
  Proxy : GoMap
  deriving DecidableEq, Repr

/-- Go `http.Client`. A `Transport` of `none` is Go's nil, which stands for
`http.DefaultTransport`. -/
structure HTTPClient where
  Transport : Option Transport
  Timeout : Int
  deriving DecidableEq, Repr

/-- Go `http.Request`, as built by `http.NewRequest` with a nil body. -/
structure Request where
  Method : String
  URL : String
  Header : Values
  deriving DecidableEq, Repr

/-- Go `http.Response`: the status code and what `io.ReadAll` gives on the
body, the bytes or the text of a read error. -/
structure Response where
  StatusCode : Int
  Body : Except String Bytes
  deriving DecidableEq, Repr

/-- One call of `client.Do`: the client and the request it was given. -/
structure Exchange where
  client : HTTPClient
  request : Request
  deriving DecidableEq, Repr

/-- What the package takes from outside. -/
structure World where
  /-- Go `fmt.Sprintf("%f", x)`. -/
  sprintfF : Float64 → String
  /-- The text of the error of `http.NewRequest` on a URL, `none` when the URL
  parses. -/
  newRequestErr : String → Option String
  /-- Go `client.Do`: the response of the upstream, or the text of a transport
  error. -/
  clientDo : HTTPClient → Request → Except String Response
  /-- The syntactic half of `json.Unmarshal`: `none` on invalid JSON. -/
  parseJSON : Bytes → Option JSON

/-! ## The operations -/

/-- Source `constructURL` (geocoder.go:71-73). -/
def constructURL (_g : Geocoder) (baseAPI : String) (params : Values) : String :=
  baseAPI ++ "?" ++ params.Encode

/-- The `http.Client` literal of `makeRequest` (geocoder.go:133-135): only
`Timeout` is set, `Transport` stays nil. -/
def requestClient (g : Geocoder) : HTTPClient :=
  { Transport := none, Timeout := g.Timeout }

/-- The request of `makeRequest` after `req.Header.Set` (geocoder.go:137-142),
for a URL that `http.NewRequest` accepts. -/
def getRequest (g : Geocoder) (url : String) : Request :=
  let req : Request := { Method := "GET", URL := url, Header := [] }
  { req with Header := Values.Set req.Header "User-Agent" g.UserAgent }

/-- Source `makeRequest` (geocoder.go:132-155). -/
def makeRequest (w : World) (g : Geocoder) (url : String) :
    List Exchange × Except GoError Bytes :=
  let client := requestClient g
  match w.newRequestErr url with
  | some detail => ([], .error (.urlParse detail))
  | none =>
    let req := getRequest g url
    match w.clientDo client req with
    | .error detail => ([⟨client, req⟩], .error (.transport detail))
    | .ok resp =>
      if resp.StatusCode ≠ httpStatusOK then
        ([⟨client, req⟩], .error (.errorString
          ("geocoding API request failed with status " ++ toString resp.StatusCode)))
      else
        match resp.Body with
        | .error detail => ([⟨client, req⟩], .error (.bodyRead detail))
        | .ok body => ([⟨client, req⟩], .ok body)

/-- The parameter set of `Geocode` (geocoder.go:78-85). -/
def geocodeParams (query : GoMap) (exactlyOne : Bool) : Values :=
  let params : Values := []
  let params := query.foldl (fun p kv => Values.Set p kv.1 kv.2) params
  let params := Values.Set params "format" "jsonv2"
  if exactlyOne then Values.Set params "limit" "1" else params

/-- The dynamic value `Geocode` returns: a `*Location` or a `[]Location`. -/
inductive GeocodeResult where
  | single (location : Location)
  | multiple (locations : List Location)
  deriving Repr

/-- Go `json.Unmarshal(resp, &locations)` on a nil `[]Location`. -/
def unmarshalLocations (w : World) (resp : Bytes) : Except GoError (List Location) :=
  match w.parseJSON resp with
  | none => .error .jsonSyntax
  | some j => decodeLocations j

/-- Go `json.Unmarshal(resp, &location)` on a zero `Location`. -/
def unmarshalLocation (w : World) (resp : Bytes) : Except GoError Location :=
  match w.parseJSON resp with
  | none => .error .jsonSyntax
  | some j => decodeLocation j Location.zero

/-- Source `Geocode` (geocoder.go:77-107). -/
def Geocode (w : World) (g : Geocoder) (query : GoMap) (exactlyOne : Bool) :
    List Exchange × Except GoError GeocodeResult :=
  let params := geocodeParams query exactlyOne
  let url := constructURL g g.API params
  match makeRequest w g url with
  | (calls, .error err) => (calls, .error err)
  | (calls, .ok resp) =>
    match unmarshalLocations w resp with
    | .error err => (calls, .error err)
    | .ok locations =>
      match locations with
      | [] => (calls, .error (.errorString "no results found"))
      | first :: _ =>
        if exactlyOne then (calls, .ok (.single first))
        else (calls, .ok (.multiple locations))

/-- The parameter set of `Reverse` (geocoder.go:111-115). -/
def reverseParams (w : World) (lat lon : Float64) : Values :=
  let params : Values := []
  let params := Values.Set params "lat" (w.sprintfF lat)
  let params := Values.Set params "lon" (w.sprintfF lon)
  let params := Values.Set params "format" "jsonv2"
  Values.Set params "addressdetails" "1"

/-- Source `Reverse` (geocoder.go:110-129). -/
def Reverse (w : World) (g : Geocoder) (lat lon : Float64) (_exactlyOne : Bool) :
    List Exchange × Except GoError Location :=
  let params := reverseParams w lat lon
  let url := constructURL g g.ReverseAPI params
  match makeRequest w g url with
  | (calls, .error err) => (calls, .error err)
  | (calls, .ok resp) =>
    match unmarshalLocation w resp with
    | .error err => (calls, .error err)
    | .ok location => (calls, .ok location)

/-! ## Vocabulary of the statements -/

/-- The upstream answers the GET that `makeRequest` issues for `url` with
`resp`: the URL parses and `client.Do` returns `resp` and a nil error. -/
def Answers (w : World) (g : Geocoder) (url : String) (resp : Response) : Prop :=
  w.newRequestErr url = none ∧ w.clientDo (requestClient g) (getRequest g url) = .ok resp

/-- The request-failed error carrying `status` (geocoder.go:151). -/
def requestFailedError (status : Int) : GoError :=
  .errorString ("geocoding API request failed with status " ++ toString status)

/-- The no-results error (geocoder.go:99). -/
def noResultsError : GoError := .errorString "no results found"

/-- The URL `Geocode` requests. -/
def geocodeURL (g : Geocoder) (query : GoMap) (exactlyOne : Bool) : String :=
  constructURL g g.API (geocodeParams query exactlyOne)

/-- The URL `Reverse` requests. -/
def reverseURL (w : World) (g : Geocoder) (lat lon : Float64) : String :=
  constructURL g g.ReverseAPI (reverseParams w lat lon)

/-- What `Geocode` makes of a body it has read (geocoder.go:93-106). -/
def geocodeOutcome (w : World) (body : Bytes) (exactlyOne : Bool) :
    Except GoError GeocodeResult :=
  match unmarshalLocations w body with
  | .error err => .error err
  | .ok [] => .error noResultsError
  | .ok (first :: rest) =>
    .ok (if exactlyOne then .single first else .multiple (first :: rest))

/-! ## Fixtures: a mocked upstream -/

/-- The client of the package examples. -/
def zipClient : Geocoder :=
  { Domain := "nominatim.openstreetmap.org"
    UserAgent := "zip_code_locator"
    Scheme := "https"
    Timeout := 10000000000
    Proxies := []
    API := "https://nominatim.openstreetmap.org/search"
    ReverseAPI := "https://nominatim.openstreetmap.org/reverse" }

/-- The same client with a proxy configured. -/
def proxiedClient : Geocoder :=
  { zipClient with Proxies := [("https", "http://10.0.0.1:3128")] }

/-- The query of `ExampleGeocoder_Geocode`. -/
def zipQuery : GoMap := [("postalcode", "90210"), ("country", "US")]

/-- The `float64` 34.0736. -/
def beverlyLat : Float64 := ⟨0x4041096bb98c7e28⟩

/-- The `float64` -118.4004. -/
def beverlyLon : Float64 := ⟨0xc05d99a027525461⟩

/-- A mocked upstream: every URL parses, every request gets `status` and
`body`, `body` parses to `json`, and `%f` is tabulated on the two coordinates
of the examples. -/
def mockWorld (status : Int) (body : Bytes) (json : JSON) : World :=
  { sprintfF := fun x =>
      if x = beverlyLat then "34.073600"
      else if x = beverlyLon then "-118.400400"
      else "0.000000"
    newRequestErr := fun _ => none
    clientDo := fun _ _ => .ok { StatusCode := status, Body := .ok body }
    parseJSON := fun b => if b = body then some json else none }

/-- Beverly Hills, as the upstream reports it. -/
def beverlyHills : Location :=
  { DisplayName := "Beverly Hills, CA", Lat := "34.0736", Lon := "-118.4004",
    AddressDetails := none }

/-- A second location. -/
def losAngeles : Location :=
  { DisplayName := "Los Angeles, CA", Lat := "34.0537", Lon := "-118.2428",
    AddressDetails := none }

/-- A third location. -/
def santaMonica : Location :=
  { DisplayName := "Santa Monica, CA", Lat := "34.0195", Lon := "-118.4912",
    AddressDetails := none }

/-- The JSON object of a location without address details. -/
def locationJSON (l : Location) : JSON :=
  .object [("display_name", .string l.DisplayName), ("lat", .string l.Lat),
    ("lon", .string l.Lon)]

/-- A body of two locations. -/
def twoBody : Bytes :=
  utf8Bytes ("[\x7b\"display_name\":\"Beverly Hills, CA\",\"lat\":\"34.0736\","
    ++ "\"lon\":\"-118.4004\"\x7d,\x7b\"display_name\":\"Los Angeles, CA\","
    ++ "\"lat\":\"34.0537\",\"lon\":\"-118.2428\"\x7d]")

/-- The JSON of `twoBody`. -/
def twoJSON : JSON := .array [locationJSON beverlyHills, locationJSON losAngeles]

/-- A body of three locations. -/
def threeBody : Bytes :=
  utf8Bytes ("[\x7b\"display_name\":\"Beverly Hills, CA\",\"lat\":\"34.0736\","
    ++ "\"lon\":\"-118.4004\"\x7d,\x7b\"display_name\":\"Los Angeles, CA\","
    ++ "\"lat\":\"34.0537\",\"lon\":\"-118.2428\"\x7d,\x7b\"display_name\":"
    ++ "\"Santa Monica, CA\",\"lat\":\"34.0195\",\"lon\":\"-118.4912\"\x7d]")

/-- The JSON of `threeBody`. -/
def threeJSON : JSON :=
  .array [locationJSON beverlyHills, locationJSON losAngeles, locationJSON santaMonica]

/-- The body `[]`. -/
def emptyBody : Bytes := utf8Bytes "[]"

/-- The not-found payload of the reverse endpoint. -/
def notFoundBody : Bytes := utf8Bytes "\x7b\"error\":\"Unable to geocode\"\x7d"

/-- The JSON of `notFoundBody`. -/
def notFoundJSON : JSON := .object [("error", .string "Unable to geocode")]

/-! ## Theorems: construction -/

theorem rejectedLoop_none_iff (userAgent : String) (l : List String) :
    rejectedLoop userAgent l = none ↔ userAgent ∉ l := by
  induction l with
  | nil => simp [rejectedLoop]
  | cons a rest ih =>
    by_cases h : userAgent = a
    · simp [rejectedLoop, h]
    · simp [rejectedLoop, h, ih]

theorem failed_iff_not_succeeded {α : Type} (r : Except GoError α) :
    Failed r ↔ ¬ Succeeded r := by
  cases r with
  | error e => simp [Failed, Succeeded]
  | ok a => simp [Failed, Succeeded]

/-- C1: `NewGeocoder ua` fails exactly when `ua` is empty or is one of the five
reserved placeholder values (compared case-sensitively); on every other
non-empty string it succeeds. -/
theorem C1_newGeocoder_fails_iff (ua : String) :
    (Failed (NewGeocoder ua) ↔
      (ua = "" ∨ ua = "my-application" ∨ ua = "my_app/1" ∨ ua = "my_user_agent/1.0"
        ∨ ua = "specify_your_app_name_here" ∨ ua = "geopy/1.0"))
    ∧ (Succeeded (NewGeocoder ua) ↔
      ¬ (ua = "" ∨ ua = "my-application" ∨ ua = "my_app/1" ∨ ua = "my_user_agent/1.0"
        ∨ ua = "specify_your_app_name_here" ∨ ua = "geopy/1.0")) := by
  have key : Failed (NewGeocoder ua) ↔
      (ua = "" ∨ ua = "my-application" ∨ ua = "my_app/1" ∨ ua = "my_user_agent/1.0"
        ∨ ua = "specify_your_app_name_here" ∨ ua = "geopy/1.0") := by
    unfold NewGeocoder
    by_cases h0 : ua = ""
    · simp [h0, Failed]
    · cases hl : rejectedLoop ua rejectedUserAgents with
      | none =>
        have hmem := (rejectedLoop_none_iff ua rejectedUserAgents).1 hl
        simp [rejectedUserAgents, defaultUserAgent] at hmem
        simp [h0, Failed, hmem]
      | some err =>
        have hmem : ¬ ua ∉ rejectedUserAgents := by
          rw [← rejectedLoop_none_iff, hl]; simp
        simp [rejectedUserAgents, defaultUserAgent] at hmem
        simp only [h0, if_false, Failed]
        constructor
        · intro _
          right
          by_contra hcon
          simp only [not_or] at hcon
          exact hcon.2.2.2.2 (hmem hcon.1 hcon.2.1 hcon.2.2.1 hcon.2.2.2.1)
        · intro _
          exact ⟨err, rfl⟩
  refine ⟨key, ?_⟩
  rw [← key, failed_iff_not_succeeded, not_not]

/-- C2: on every `ua` on which `NewGeocoder` succeeds, the client has the given
user agent, the public Nominatim host, scheme https, a ten second timeout, an
empty proxy map, and the two endpoints built from scheme and domain. -/
theorem C2_newGeocoder_defaults (ua : String) (g : Geocoder)
    (h : NewGeocoder ua = .ok g) :
    g.UserAgent = ua
    ∧ g.Domain = "nominatim.openstreetmap.org"
    ∧ g.Scheme = "https"
    ∧ g.Timeout = 10 * timeSecond
    ∧ g.Timeout = 10000000000
    ∧ g.Proxies = []
    ∧ g.API = g.Scheme ++ "://" ++ g.Domain ++ "/search"
    ∧ g.ReverseAPI = g.Scheme ++ "://" ++ g.Domain ++ "/reverse" := by
  unfold NewGeocoder at h
  split at h
  · exact absurd h (by simp)
  · split at h
    · exact absurd h (by simp)
    · injection h with h
      subst h
      exact ⟨rfl, rfl, rfl, rfl, rfl, rfl, rfl, rfl⟩

/-- C2 at the user agent of the package example. -/
theorem C2_newGeocoder_defaults_witness :
    NewGeocoder "zip_code_locator" = .ok zipClient
    ∧ zipClient.UserAgent = "zip_code_locator"
    ∧ zipClient.Domain = "nominatim.openstreetmap.org"
    ∧ zipClient.Scheme = "https"
    ∧ zipClient.Timeout = 10 * timeSecond
    ∧ zipClient.Timeout = 10000000000
    ∧ zipClient.Proxies = []
    ∧ zipClient.API = zipClient.Scheme ++ "://" ++ zipClient.Domain ++ "/search"
    ∧ zipClient.ReverseAPI = zipClient.Scheme ++ "://" ++ zipClient.Domain ++ "/reverse" :=
  ⟨by decide, C2_newGeocoder_defaults "zip_code_locator" zipClient (by decide)⟩

/-! ## Theorems: the HTTP helper -/

theorem makeRequest_of_answers (w : World) (g : Geocoder) (url : String) (resp : Response)
    (h : Answers w g url resp) :
    makeRequest w g url =
      ([⟨requestClient g, getRequest g url⟩],
        if resp.StatusCode ≠ 200 then .error (requestFailedError resp.StatusCode)
        else match resp.Body with
          | .error detail => .error (.bodyRead detail)
          | .ok body => .ok body) := by
  obtain ⟨h1, h2⟩ := h
  unfold makeRequest
  simp only [h1, h2, httpStatusOK, requestFailedError]
  split
  · rfl
  · cases resp.Body <;> rfl

theorem makeRequest_of_body (w : World) (g : Geocoder) (url : String) (resp : Response)
    (body : Bytes) (h : Answers w g url resp) (hs : resp.StatusCode = 200)
    (hb : resp.Body = .ok body) :
    makeRequest w g url = ([⟨requestClient g, getRequest g url⟩], .ok body) := by
  rw [makeRequest_of_answers w g url resp h]
  simp [hs, hb]

theorem geocode_of_body (w : World) (g : Geocoder) (query : GoMap) (exactlyOne : Bool)
    (resp : Response) (body : Bytes)
    (h : Answers w g (geocodeURL g query exactlyOne) resp) (hs : resp.StatusCode = 200)
    (hb : resp.Body = .ok body) :
    (Geocode w g query exactlyOne).2 = geocodeOutcome w body exactlyOne := by
  have hm := makeRequest_of_body w g _ resp body h hs hb
  unfold geocodeURL at hm
  unfold Geocode geocodeOutcome
  simp only [hm]
  cases unmarshalLocations w body with
  | error e => rfl
  | ok ls =>
    cases ls with
    | nil => rfl
    | cons l rest => cases exactlyOne <;> rfl

theorem reverse_of_body (w : World) (g : Geocoder) (lat lon : Float64) (exactlyOne : Bool)
    (resp : Response) (body : Bytes)
    (h : Answers w g (reverseURL w g lat lon) resp) (hs : resp.StatusCode = 200)
    (hb : resp.Body = .ok body) :
    (Reverse w g lat lon exactlyOne).2 = unmarshalLocation w body := by
  have hm := makeRequest_of_body w g _ resp body h hs hb
  unfold reverseURL at hm
  unfold Reverse
  simp only [hm]
  cases unmarshalLocation w body <;> rfl

/-! ## Theorems: forward geocoding results -/

/-- C3: when the upstream answers the request of `Geocode query true` with
status 200 and a body that decodes to a non-empty array of locations, the call
succeeds and returns the first element of the array as a single `Location`,
whatever follows it. -/
theorem C3_geocode_exactlyOne_first (w : World) (g : Geocoder) (query : GoMap)
    (resp : Response) (body : Bytes) (j : JSON) (first : Location) (rest : List Location)
    (h : Answers w g (geocodeURL g query true) resp)
    (hs : resp.StatusCode = 200) (hb : resp.Body = .ok body)
    (hj : w.parseJSON body = some j) (hd : decodeLocations j = .ok (first :: rest)) :
    (Geocode w g query true).2 = .ok (.single first) := by
  rw [geocode_of_body w g query true resp body h hs hb]
  simp [geocodeOutcome, unmarshalLocations, hj, hd]

/-- C3 on a mocked upstream that returns two locations. -/
theorem C3_geocode_exactlyOne_first_witness :
    (Geocode (mockWorld 200 twoBody twoJSON) zipClient zipQuery true).2
      = .ok (.single beverlyHills) :=
  C3_geocode_exactlyOne_first (mockWorld 200 twoBody twoJSON) zipClient zipQuery
    { StatusCode := 200, Body := .ok twoBody } twoBody twoJSON beverlyHills [losAngeles]
    ⟨rfl, rfl⟩ rfl rfl rfl rfl

/-- C4: when the upstream answers the request of `Geocode query false` with
status 200 and a body that decodes to a non-empty array of locations, the call
succeeds and returns the whole decoded array as a sequence: same length, same
elements, same order. -/
theorem C4_geocode_all_in_order (w : World) (g : Geocoder) (query : GoMap)
    (resp : Response) (body : Bytes) (j : JSON) (locations : List Location)
    (h : Answers w g (geocodeURL g query false) resp)
    (hs : resp.StatusCode = 200) (hb : resp.Body = .ok body)
    (hj : w.parseJSON body = some j) (hd : decodeLocations j = .ok locations)
    (hne : locations ≠ []) :
    (Geocode w g query false).2 = .ok (.multiple locations) := by
  rw [geocode_of_body w g query false resp body h hs hb]
  cases locations with
  | nil => exact absurd rfl hne
  | cons l rest => simp [geocodeOutcome, unmarshalLocations, hj, hd]

/-- C4 on a mocked upstream that returns three locations. -/
theorem C4_geocode_all_in_order_witness :
    (Geocode (mockWorld 200 threeBody threeJSON) zipClient zipQuery false).2
      = .ok (.multiple [beverlyHills, losAngeles, santaMonica]) :=
  C4_geocode_all_in_order (mockWorld 200 threeBody threeJSON) zipClient zipQuery
    { StatusCode := 200, Body := .ok threeBody } threeBody threeJSON
    [beverlyHills, losAngeles, santaMonica] ⟨rfl, rfl⟩ rfl rfl rfl rfl (by simp)

/-- C5: when the upstream answers the request of `Geocode` with status 200 and
a body that decodes to an empty array, the call fails with the no-results
error, for both values of `exactlyOne`; it returns no value. -/
theorem C5_geocode_empty_is_error (w : World) (g : Geocoder) (query : GoMap)
    (exactlyOne : Bool) (resp : Response) (body : Bytes) (j : JSON)
    (h : Answers w g (geocodeURL g query exactlyOne) resp)
    (hs : resp.StatusCode = 200) (hb : resp.Body = .ok body)
    (hj : w.parseJSON body = some j) (hd : decodeLocations j = .ok []) :
    (Geocode w g query exactlyOne).2 = .error (.errorString "no results found")
      ∧ ¬ Succeeded (Geocode w g query exactlyOne).2 := by
  have key : (Geocode w g query exactlyOne).2 = .error (.errorString "no results found") := by
    rw [geocode_of_body w g query exactlyOne resp body h hs hb]
    simp [geocodeOutcome, unmarshalLocations, hj, hd, noResultsError]
  refine ⟨key, ?_⟩
  rw [key]
  rintro ⟨a, ha⟩
  exact absurd ha (by simp)

/-- C5 on a mocked upstream that returns `[]`. -/
theorem C5_geocode_empty_is_error_witness :
    (Geocode (mockWorld 200 emptyBody (.array [])) zipClient zipQuery false).2
        = .error (.errorString "no results found")
      ∧ ¬ Succeeded (Geocode (mockWorld 200 emptyBody (.array [])) zipClient zipQuery false).2 :=
  C5_geocode_empty_is_error (mockWorld 200 emptyBody (.array [])) zipClient zipQuery false
    { StatusCode := 200, Body := .ok emptyBody } emptyBody (.array [])
    ⟨rfl, rfl⟩ rfl rfl rfl rfl

/-! ## Theorems: the outgoing query -/

theorem lookup_Set (v : Values) (key value k : String) :
    (Values.Set v key value).lookup k = if key = k then some [value] else v.lookup k := by
  induction v with
  | nil => simp [Values.Set, Values.lookup]
  | cons e rest ih =>
    obtain ⟨k0, vs⟩ := e
    by_cases h0 : k0 = key
    · subst h0
      by_cases h1 : k0 = k <;> simp [Values.Set, Values.lookup, h1]
    · by_cases h1 : k0 = k
      · subst h1
        have h2 : ¬ key = k0 := fun hc => h0 hc.symm
        simp [Values.Set, Values.lookup, h0, h2]
      · simp [Values.Set, Values.lookup, h0, h1, ih]

theorem mem_keys_Set (v : Values) (key value k : String) :
    k ∈ (Values.Set v key value).keys ↔ k = key ∨ k ∈ v.keys := by
  induction v with
  | nil => simp [Values.Set, Values.keys]
  | cons e rest ih =>
    obtain ⟨k0, vs⟩ := e
    by_cases h0 : k0 = key
    · subst h0
      simp [Values.Set, Values.keys]
    · simp only [Values.keys] at ih
      simp only [Values.Set, h0, if_false, Values.keys, List.map_cons, List.mem_cons, ih]
      tauto

theorem nodup_keys_Set (v : Values) (key value : String) (h : v.keys.Nodup) :
    (Values.Set v key value).keys.Nodup := by
  induction v with
  | nil => simp [Values.Set, Values.keys]
  | cons e rest ih =>
    obtain ⟨k0, vs⟩ := e
    have hk : k0 ∉ Values.keys rest ∧ (Values.keys rest).Nodup := by
      simpa [Values.keys] using h
    by_cases h0 : k0 = key
    · subst h0
      simpa [Values.Set, Values.keys] using h
    · have hnot : k0 ∉ (Values.Set rest key value).keys := by
        rw [mem_keys_Set]
        exact fun hc => hc.elim h0 hk.1
      have hrest := ih hk.2
      simp only [Values.keys] at hnot hrest
      simp [Values.Set, h0, Values.keys, hnot, hrest]

theorem nodup_keys_foldl_Set (query : GoMap) (v : Values) (h : v.keys.Nodup) :
    (query.foldl (fun p kv => Values.Set p kv.1 kv.2) v).keys.Nodup := by
  induction query generalizing v with
  | nil => simpa using h
  | cons e rest ih => exact ih _ (nodup_keys_Set v e.1 e.2 h)

theorem get_eq_none_of_not_mem (m : GoMap) (k : String) (h : k ∉ m.keys) :
    GoMap.get m k = none := by
  induction m with
  | nil => rfl
  | cons e rest ih =>
    obtain ⟨k0, x⟩ := e
    have hk : ¬ k = k0 ∧ k ∉ GoMap.keys rest := by simpa [GoMap.keys] using h
    have h0 : ¬ k0 = k := fun hc => hk.1 hc.symm
    simp [GoMap.get, h0, ih hk.2]

theorem lookup_foldl_Set (query : GoMap) (hq : query.keys.Nodup) (v : Values) (k : String) :
    (query.foldl (fun p kv => Values.Set p kv.1 kv.2) v).lookup k =
      match GoMap.get query k with
      | some x => some [x]
      | none => v.lookup k := by
  induction query generalizing v with
  | nil => rfl
  | cons e rest ih =>
    obtain ⟨k0, x⟩ := e
    have hk : k0 ∉ GoMap.keys rest ∧ (GoMap.keys rest).Nodup := by
      simpa [GoMap.keys] using hq
    rw [List.foldl_cons, ih hk.2, lookup_Set]
    by_cases h0 : k0 = k
    · subst h0
      simp [GoMap.get, get_eq_none_of_not_mem rest k0 hk.1]
    · simp only [GoMap.get, h0, if_false]

theorem makeRequest_calls (w : World) (g : Geocoder) (url : String) :
    (makeRequest w g url).1 =
      match w.newRequestErr url with
      | some _ => []
      | none => [⟨requestClient g, getRequest g url⟩] := by
  unfold makeRequest
  cases w.newRequestErr url with
  | some d => rfl
  | none =>
    simp only
    cases w.clientDo (requestClient g) (getRequest g url) with
    | error d => rfl
    | ok resp =>
      simp only
      split
      · rfl
      · cases resp.Body <;> rfl

theorem geocode_calls (w : World) (g : Geocoder) (query : GoMap) (exactlyOne : Bool) :
    (Geocode w g query exactlyOne).1 = (makeRequest w g (geocodeURL g query exactlyOne)).1 := by
  unfold Geocode geocodeURL
  dsimp only
  generalize makeRequest w g (constructURL g g.API (geocodeParams query exactlyOne)) = out
  obtain ⟨calls, r⟩ := out
  cases r with
  | error e => rfl
  | ok body =>
    simp only
    cases unmarshalLocations w body with
    | error e => rfl
    | ok ls =>
      cases ls with
      | nil => rfl
      | cons l rest => cases exactlyOne <;> rfl

theorem reverse_calls (w : World) (g : Geocoder) (lat lon : Float64) (exactlyOne : Bool) :
    (Reverse w g lat lon exactlyOne).1 = (makeRequest w g (reverseURL w g lat lon)).1 := by
  unfold Reverse reverseURL
  dsimp only
  generalize makeRequest w g (constructURL g g.ReverseAPI (reverseParams w lat lon)) = out
  obtain ⟨calls, r⟩ := out
  cases r with
  | error e => rfl
  | ok body =>
    simp only
    cases unmarshalLocation w body <;> rfl

theorem mem_makeRequest_calls (w : World) (g : Geocoder) (url : String) (ex : Exchange)
    (h : ex ∈ (makeRequest w g url).1) : ex = ⟨requestClient g, getRequest g url⟩ := by
  rw [makeRequest_calls] at h
  cases hn : w.newRequestErr url with
  | some d => simp [hn] at h
  | none => simpa [hn] using h

theorem length_makeRequest_calls (w : World) (g : Geocoder) (url : String) :
    (makeRequest w g url).1.length ≤ 1 := by
  rw [makeRequest_calls]
  cases w.newRequestErr url <;> simp

/-- C6: for a caller map `query` and either `exactlyOne`, the parameter set of
`Geocode` has `format` set to `jsonv2` whatever the caller gave, has `limit`
set to `1` when `exactlyOne` is true whatever the caller gave, carries every
other caller key with the caller's value and has no further key; and the URL
of the request is the forward endpoint, `?`, and the encoding of that set. -/
theorem C6_geocode_params (w : World) (g : Geocoder) (query : GoMap) (exactlyOne : Bool)
    (hq : query.keys.Nodup) :
    (∀ k, (geocodeParams query exactlyOne).lookup k =
        if k = "format" then some ["jsonv2"]
        else if exactlyOne = true ∧ k = "limit" then some ["1"]
        else (GoMap.get query k).map (fun v => [v]))
    ∧ (geocodeParams query exactlyOne).keys.Nodup
    ∧ (∀ ex ∈ (Geocode w g query exactlyOne).1,
        ex.request.URL = g.API ++ "?" ++ (geocodeParams query exactlyOne).Encode)
    ∧ (Geocode w g query exactlyOne).1.length ≤ 1
    ∧ (w.newRequestErr (g.API ++ "?" ++ (geocodeParams query exactlyOne).Encode) = none →
        (Geocode w g query exactlyOne).1.length = 1) := by
  refine ⟨?_, ?_, ?_, ?_, ?_⟩
  · intro k
    have hbase : ∀ k, (Values.Set (query.foldl (fun p kv => Values.Set p kv.1 kv.2) [])
        "format" "jsonv2").lookup k =
        if k = "format" then some ["jsonv2"] else (GoMap.get query k).map (fun v => [v]) := by
      intro k
      rw [lookup_Set, lookup_foldl_Set query hq]
      by_cases hf : k = "format"
      · subst hf; simp
      · have hf2 : ¬ "format" = k := fun hc => hf hc.symm
        simp only [hf, hf2, if_false]
        cases GoMap.get query k <;> simp [Values.lookup]
    cases exactlyOne with
    | false => simpa [geocodeParams] using hbase k
    | true =>
      simp only [geocodeParams, if_true, lookup_Set, hbase, true_and]
      by_cases hl : k = "limit"
      · subst hl; simp
      · have hl2 : ¬ "limit" = k := fun hc => hl hc.symm
        simp only [hl, hl2, if_false]
  · have h1 : (Values.Set (query.foldl (fun p kv => Values.Set p kv.1 kv.2) [])
        "format" "jsonv2").keys.Nodup :=
      nodup_keys_Set _ _ _ (nodup_keys_foldl_Set query [] (by simp [Values.keys]))
    cases exactlyOne with
    | false => simpa [geocodeParams] using h1
    | true => simpa [geocodeParams] using nodup_keys_Set _ "limit" "1" h1
  · intro ex hex
    rw [geocode_calls] at hex
    rw [mem_makeRequest_calls w g _ ex hex]
    rfl
  · rw [geocode_calls]
    exact length_makeRequest_calls w g _
  · intro hurl
    rw [geocode_calls, makeRequest_calls]
    have hurl2 : w.newRequestErr (geocodeURL g query exactlyOne) = none := hurl
    simp [hurl2]

/-- C6 on a caller map that sets `format` and `limit` itself. -/
theorem C6_geocode_params_witness :
    ((∀ k, (geocodeParams [("postalcode", "90210"), ("format", "xml"), ("limit", "5")]
          true).lookup k =
        if k = "format" then some ["jsonv2"]
        else if true = true ∧ k = "limit" then some ["1"]
        else (GoMap.get [("postalcode", "90210"), ("format", "xml"), ("limit", "5")]
          k).map (fun v => [v]))
      ∧ (geocodeParams [("postalcode", "90210"), ("format", "xml"), ("limit", "5")]
          true).keys.Nodup
      ∧ (∀ ex ∈ (Geocode (mockWorld 200 twoBody twoJSON) zipClient
            [("postalcode", "90210"), ("format", "xml"), ("limit", "5")] true).1,
          ex.request.URL = zipClient.API ++ "?" ++
            (geocodeParams [("postalcode", "90210"), ("format", "xml"), ("limit", "5")]
              true).Encode)
      ∧ (Geocode (mockWorld 200 twoBody twoJSON) zipClient
            [("postalcode", "90210"), ("format", "xml"), ("limit", "5")] true).1.length ≤ 1
      ∧ ((mockWorld 200 twoBody twoJSON).newRequestErr (zipClient.API ++ "?" ++
            (geocodeParams [("postalcode", "90210"), ("format", "xml"), ("limit", "5")]
              true).Encode) = none →
          (Geocode (mockWorld 200 twoBody twoJSON) zipClient
            [("postalcode", "90210"), ("format", "xml"), ("limit", "5")] true).1.length = 1))
    ∧ (Geocode (mockWorld 200 twoBody twoJSON) zipClient
          [("postalcode", "90210"), ("format", "xml"), ("limit", "5")] true).1.map
        (fun ex => ex.request.URL)
      = ["https://nominatim.openstreetmap.org/search?format=jsonv2&limit=1&postalcode=90210"] :=
  ⟨C6_geocode_params (mockWorld 200 twoBody twoJSON) zipClient
    [("postalcode", "90210"), ("format", "xml"), ("limit", "5")] true (by decide), by decide⟩

/-- C7: for every latitude and longitude the parameter set of `Reverse` has
exactly the keys `lat`, `lon`, `format` and `addressdetails`, with `format` set
to `jsonv2` and `addressdetails` to `1`; the URL of the request is the reverse
endpoint, `?`, and the encoding of that set; and the whole call, its request
included, is the same for `exactlyOne` true and false. -/
theorem C7_reverse_params (w : World) (g : Geocoder) (lat lon : Float64) :
    (∀ k, (reverseParams w lat lon).lookup k =
        if k = "lat" then some [w.sprintfF lat]
        else if k = "lon" then some [w.sprintfF lon]
        else if k = "format" then some ["jsonv2"]
        else if k = "addressdetails" then some ["1"]
        else none)
    ∧ (reverseParams w lat lon).keys = ["lat", "lon", "format", "addressdetails"]
    ∧ (∀ exactlyOne, ∀ ex ∈ (Reverse w g lat lon exactlyOne).1,
        ex.request.URL = g.ReverseAPI ++ "?" ++ (reverseParams w lat lon).Encode)
    ∧ Reverse w g lat lon true = Reverse w g lat lon false := by
  have hp : reverseParams w lat lon =
      [("lat", [w.sprintfF lat]), ("lon", [w.sprintfF lon]), ("format", ["jsonv2"]),
        ("addressdetails", ["1"])] := by
    simp [reverseParams, Values.Set]
  refine ⟨?_, ?_, ?_, rfl⟩
  · intro k
    rw [hp]
    simp only [Values.lookup]
    by_cases h1 : k = "lat"
    · subst h1; simp
    · have h1b : ¬ "lat" = k := fun hc => h1 hc.symm
      by_cases h2 : k = "lon"
      · subst h2; simp
      · have h2b : ¬ "lon" = k := fun hc => h2 hc.symm
        by_cases h3 : k = "format"
        · subst h3; simp
        · have h3b : ¬ "format" = k := fun hc => h3 hc.symm
          by_cases h4 : k = "addressdetails"
          · subst h4; simp
          · have h4b : ¬ "addressdetails" = k := fun hc => h4 hc.symm
            simp [h1, h2, h3, h4, h1b, h2b, h3b, h4b]
  · rw [hp]; rfl
  · intro exactlyOne ex hex
    rw [reverse_calls] at hex
    rw [mem_makeRequest_calls w g _ ex hex]
    rfl

/-! ## Theorems: HTTP status -/

theorem noResults_ne_requestFailed (status : Int) :
    noResultsError ≠ requestFailedError status := by
  intro h
  unfold noResultsError requestFailedError at h
  injection h with h
  have h2 := congrArg (fun s => s.data.head?) h
  simp [String.data_append] at h2

theorem storeString_error (v : JSON) (old : String) (e : GoError)
    (h : storeString v old = .error e) : e = .jsonType := by
  cases v <;> simp [storeString] at h <;> exact h.symm

theorem storeMap_error (v : JSON) (old : Option (List (String × JSON))) (e : GoError)
    (h : storeMap v old = .error e) : e = .jsonType := by
  cases v <;> simp [storeMap] at h <;> exact h.symm

theorem decodeMembers_error (ms : List (String × JSON)) (loc : Location) (e : GoError)
    (h : decodeMembers ms loc = .error e) : e = .jsonType := by
  induction ms generalizing loc with
  | nil => simp [decodeMembers] at h
  | cons kv rest ih =>
    obtain ⟨k, v⟩ := kv
    unfold decodeMembers at h
    split at h
    · exact ih _ h
    · split at h
      · rename_i e2 he
        injection h with h
        subst h
        exact storeString_error _ _ _ he
      · exact ih _ h
    · split at h
      · rename_i e2 he
        injection h with h
        subst h
        exact storeString_error _ _ _ he
      · exact ih _ h
    · split at h
      · rename_i e2 he
        injection h with h
        subst h
        exact storeString_error _ _ _ he
      · exact ih _ h
    · split at h
      · rename_i e2 he
        injection h with h
        subst h
        exact storeMap_error _ _ _ he
      · exact ih _ h

theorem decodeLocation_error (j : JSON) (loc : Location) (e : GoError)
    (h : decodeLocation j loc = .error e) : e = .jsonType := by
  cases j with
  | object ms => exact decodeMembers_error ms loc e h
  | null => simp [decodeLocation] at h
  | bool b => simp [decodeLocation] at h; exact h.symm
  | number n => simp [decodeLocation] at h; exact h.symm
  | string n => simp [decodeLocation] at h; exact h.symm
  | array n => simp [decodeLocation] at h; exact h.symm

theorem decodeElems_error (es : List JSON) (e : GoError)
    (h : decodeElems es = .error e) : e = .jsonType := by
  induction es with
  | nil => simp [decodeElems] at h
  | cons x rest ih =>
    unfold decodeElems at h
    split at h
    · rename_i e2 he
      injection h with h
      subst h
      exact decodeLocation_error _ _ _ he
    · split at h
      · rename_i e2 he
        injection h with h
        subst h
        exact ih he
      · simp at h

theorem decodeLocations_error (j : JSON) (e : GoError)
    (h : decodeLocations j = .error e) : e = .jsonType := by
  cases j with
  | array es => exact decodeElems_error es e h
  | null => simp [decodeLocations] at h
  | bool b => simp [decodeLocations] at h; exact h.symm
  | number n => simp [decodeLocations] at h; exact h.symm
  | string n => simp [decodeLocations] at h; exact h.symm
  | object n => simp [decodeLocations] at h; exact h.symm

theorem unmarshalLocations_error (w : World) (body : Bytes) (e : GoError)
    (h : unmarshalLocations w body = .error e) : e = .jsonSyntax ∨ e = .jsonType := by
  unfold unmarshalLocations at h
  split at h
  · injection h with h
    exact Or.inl h.symm
  · exact Or.inr (decodeLocations_error _ _ h)

theorem unmarshalLocation_error (w : World) (body : Bytes) (e : GoError)
    (h : unmarshalLocation w body = .error e) : e = .jsonSyntax ∨ e = .jsonType := by
  unfold unmarshalLocation at h
  split at h
  · injection h with h
    exact Or.inl h.symm
  · exact Or.inr (decodeLocation_error _ _ _ h)

theorem geocodeOutcome_ne_requestFailed (w : World) (body : Bytes) (exactlyOne : Bool)
    (status : Int) : geocodeOutcome w body exactlyOne ≠ .error (requestFailedError status) := by
  unfold geocodeOutcome
  cases hu : unmarshalLocations w body with
  | error e =>
    intro h
    injection h with h
    rcases unmarshalLocations_error w body e hu with he | he <;>
      · rw [he] at h
        simp [requestFailedError] at h
  | ok ls =>
    cases ls with
    | nil =>
      intro h
      injection h with h
      exact noResults_ne_requestFailed status h
    | cons l rest => simp

theorem unmarshalLocation_ne_requestFailed (w : World) (body : Bytes) (status : Int) :
    unmarshalLocation w body ≠ .error (requestFailedError status) := by
  intro h
  rcases unmarshalLocation_error w body _ h with he | he <;>
    simp [requestFailedError] at he

theorem geocode_of_answers (w : World) (g : Geocoder) (query : GoMap) (exactlyOne : Bool)
    (resp : Response) (h : Answers w g (geocodeURL g query exactlyOne) resp) :
    (Geocode w g query exactlyOne).2 =
      if resp.StatusCode ≠ 200 then .error (requestFailedError resp.StatusCode)
      else match resp.Body with
        | .error detail => .error (.bodyRead detail)
        | .ok body => geocodeOutcome w body exactlyOne := by
  by_cases hs : resp.StatusCode = 200
  · cases hb : resp.Body with
    | error d =>
      have hm := makeRequest_of_answers w g _ resp h
      unfold geocodeURL at hm
      unfold Geocode
      simp [hm, hs, hb]
    | ok body =>
      rw [geocode_of_body w g query exactlyOne resp body h hs hb]
      simp [hs]
  · have hm := makeRequest_of_answers w g _ resp h
    unfold geocodeURL at hm
    unfold Geocode
    simp [hm, hs]

theorem reverse_of_answers (w : World) (g : Geocoder) (lat lon : Float64) (exactlyOne : Bool)
    (resp : Response) (h : Answers w g (reverseURL w g lat lon) resp) :
    (Reverse w g lat lon exactlyOne).2 =
      if resp.StatusCode ≠ 200 then .error (requestFailedError resp.StatusCode)
      else match resp.Body with
        | .error detail => .error (.bodyRead detail)
        | .ok body => unmarshalLocation w body := by
  by_cases hs : resp.StatusCode = 200
  · cases hb : resp.Body with
    | error d =>
      have hm := makeRequest_of_answers w g _ resp h
      unfold reverseURL at hm
      unfold Reverse
      simp [hm, hs, hb]
    | ok body =>
      rw [reverse_of_body w g lat lon exactlyOne resp body h hs hb]
      simp [hs]
  · have hm := makeRequest_of_answers w g _ resp h
    unfold reverseURL at hm
    unfold Reverse
    simp [hm, hs]

/-- C8, as stated, fails at status 201: a 2xx status other than 200 makes both
`Geocode` and `Reverse` fail with the request-failed error. -/
theorem C8_status_201_counterexample :
    ((200 : Int) ≤ 201 ∧ (201 : Int) < 300)
    ∧ Answers (mockWorld 201 twoBody twoJSON) zipClient (geocodeURL zipClient zipQuery true)
        { StatusCode := 201, Body := .ok twoBody }
    ∧ (Geocode (mockWorld 201 twoBody twoJSON) zipClient zipQuery true).2
        = .error (.errorString "geocoding API request failed with status 201")
    ∧ (Reverse (mockWorld 201 twoBody twoJSON) zipClient beverlyLat beverlyLon true).2
        = .error (.errorString "geocoding API request failed with status 201") :=
  ⟨by decide, ⟨rfl, rfl⟩, rfl, rfl⟩

/-- C8, amended: when the upstream answers the request, `Geocode` and `Reverse`
fail with the request-failed error exactly when the status is not 200, and the
error then carries that status code; at status 200 the body is read and
decoded, and the outcome is never the request-failed error. -/
theorem C8_request_failed_iff_not_200 (w : World) (g : Geocoder) (query : GoMap)
    (exactlyOne : Bool) (lat lon : Float64) (respG respR : Response)
    (hG : Answers w g (geocodeURL g query exactlyOne) respG)
    (hR : Answers w g (reverseURL w g lat lon) respR) :
    ((∃ status, (Geocode w g query exactlyOne).2 = .error (requestFailedError status))
        ↔ respG.StatusCode ≠ 200)
    ∧ (respG.StatusCode ≠ 200 →
        (Geocode w g query exactlyOne).2 = .error (.errorString
          ("geocoding API request failed with status " ++ toString respG.StatusCode)))
    ∧ (respG.StatusCode = 200 →
        (Geocode w g query exactlyOne).2 =
          match respG.Body with
          | .error detail => .error (.bodyRead detail)
          | .ok body => geocodeOutcome w body exactlyOne)
    ∧ ((∃ status, (Reverse w g lat lon exactlyOne).2 = .error (requestFailedError status))
        ↔ respR.StatusCode ≠ 200)
    ∧ (respR.StatusCode ≠ 200 →
        (Reverse w g lat lon exactlyOne).2 = .error (.errorString
          ("geocoding API request failed with status " ++ toString respR.StatusCode)))
    ∧ (respR.StatusCode = 200 →
        (Reverse w g lat lon exactlyOne).2 =
          match respR.Body with
          | .error detail => .error (.bodyRead detail)
          | .ok body => unmarshalLocation w body) := by
  have eG := geocode_of_answers w g query exactlyOne respG hG
  have eR := reverse_of_answers w g lat lon exactlyOne respR hR
  refine ⟨⟨?_, ?_⟩, ?_, ?_, ⟨?_, ?_⟩, ?_, ?_⟩
  · rintro ⟨status, hst⟩ hs
    rw [eG] at hst
    simp only [hs, ne_eq, not_true_eq_false, if_false] at hst
    cases hb : respG.Body with
    | error d => simp [hb, requestFailedError] at hst
    | ok body =>
      simp only [hb] at hst
      exact geocodeOutcome_ne_requestFailed w body exactlyOne status hst
  · intro hs
    exact ⟨respG.StatusCode, by rw [eG]; simp [hs]⟩
  · intro hs
    rw [eG]; simp [hs, requestFailedError]
  · intro hs
    rw [eG]; simp [hs]
  · rintro ⟨status, hst⟩ hs
    rw [eR] at hst
    simp only [hs, ne_eq, not_true_eq_false, if_false] at hst
    cases hb : respR.Body with
    | error d => simp [hb, requestFailedError] at hst
    | ok body =>
      simp only [hb] at hst
      exact unmarshalLocation_ne_requestFailed w body status hst
  · intro hs
    exact ⟨respR.StatusCode, by rw [eR]; simp [hs]⟩
  · intro hs
    rw [eR]; simp [hs, requestFailedError]
  · intro hs
    rw [eR]; simp [hs]

/-- C8, amended, on a mocked upstream that answers 503. -/
theorem C8_request_failed_iff_not_200_witness :
    (Geocode (mockWorld 503 emptyBody (.array [])) zipClient zipQuery true).2
        = .error (.errorString "geocoding API request failed with status 503")
    ∧ (Reverse (mockWorld 503 emptyBody (.array [])) zipClient beverlyLat beverlyLon true).2
        = .error (.errorString "geocoding API request failed with status 503") :=
  have h := C8_request_failed_iff_not_200 (mockWorld 503 emptyBody (.array [])) zipClient
    zipQuery true beverlyLat beverlyLon { StatusCode := 503, Body := .ok emptyBody }
    { StatusCode := 503, Body := .ok emptyBody } ⟨rfl, rfl⟩ ⟨rfl, rfl⟩
  ⟨h.2.1 (by decide), h.2.2.2.2.1 (by decide)⟩

/-! ## Theorems: the reverse endpoint on a not-found payload -/

theorem decodeMembers_unknown_keys (ms : List (String × JSON)) (loc : Location)
    (h : ∀ kv ∈ ms, fieldByName kv.1 = none) : decodeMembers ms loc = .ok loc := by
  induction ms with
  | nil => rfl
  | cons kv rest ih =>
    obtain ⟨k, v⟩ := kv
    have hk : fieldByName k = none := h (k, v) (List.mem_cons_self _ _)
    unfold decodeMembers
    simp only [hk]
    exact ih (fun kv hkv => h kv (List.mem_cons_of_mem _ hkv))

theorem reverse_unknown_keys (w : World) (g : Geocoder) (lat lon : Float64)
    (exactlyOne : Bool) (resp : Response) (body : Bytes) (ms : List (String × JSON))
    (h : Answers w g (reverseURL w g lat lon) resp) (hs : resp.StatusCode = 200)
    (hb : resp.Body = .ok body) (hj : w.parseJSON body = some (.object ms))
    (hk : ∀ kv ∈ ms, fieldByName kv.1 = none) :
    (Reverse w g lat lon exactlyOne).2 = .ok Location.zero := by
  rw [reverse_of_body w g lat lon exactlyOne resp body h hs hb]
  simp [unmarshalLocation, hj, decodeLocation, decodeMembers_unknown_keys ms _ hk]

/-- C9 fails on the code: on a status 200 answer whose body is the not-found
object of the reverse endpoint, with an `error` member and none of
`display_name`, `lat`, `lon`, `Reverse` returns a nil error and the zero
`Location`; `Geocode`, given the same body, fails. -/
theorem C9_reverse_not_found_returns_zero_location :
    Answers (mockWorld 200 notFoundBody notFoundJSON) zipClient
        (reverseURL (mockWorld 200 notFoundBody notFoundJSON) zipClient beverlyLat beverlyLon)
        { StatusCode := 200, Body := .ok notFoundBody }
    ∧ (mockWorld 200 notFoundBody notFoundJSON).parseJSON notFoundBody
        = some (.object [("error", .string "Unable to geocode")])
    ∧ (Reverse (mockWorld 200 notFoundBody notFoundJSON) zipClient beverlyLat beverlyLon true).2
        = .ok { DisplayName := "", Lat := "", Lon := "", AddressDetails := none }
    ∧ (Reverse (mockWorld 200 notFoundBody notFoundJSON) zipClient beverlyLat beverlyLon false).2
        = .ok { DisplayName := "", Lat := "", Lon := "", AddressDetails := none }
    ∧ (Geocode (mockWorld 200 notFoundBody notFoundJSON) zipClient zipQuery true).2
        = .error .jsonType :=
  ⟨⟨rfl, rfl⟩, rfl, rfl, rfl, rfl⟩

/-! ## Theorems: how the GET is configured -/

/-- C10, as stated, fails on a client with a proxy configured: the one GET it
issues goes through an `http.Client` whose `Transport` is nil, and the call is
the same as that of the client without a proxy. -/
theorem C10_proxies_ignored_counterexample :
    proxiedClient.Proxies = [("https", "http://10.0.0.1:3128")]
    ∧ (makeRequest (mockWorld 200 twoBody twoJSON) proxiedClient
          "https://nominatim.openstreetmap.org/search?format=jsonv2").1
        = [⟨{ Transport := none, Timeout := 10000000000 },
            { Method := "GET"
              URL := "https://nominatim.openstreetmap.org/search?format=jsonv2"
              Header := [("User-Agent", ["zip_code_locator"])] }⟩]
    ∧ (makeRequest (mockWorld 200 twoBody twoJSON) proxiedClient
          "https://nominatim.openstreetmap.org/search?format=jsonv2").1.map
        (fun ex => decide (ex.client.Transport = some ⟨proxiedClient.Proxies⟩)) = [false]
    ∧ makeRequest (mockWorld 200 twoBody twoJSON) proxiedClient
          "https://nominatim.openstreetmap.org/search?format=jsonv2"
        = makeRequest (mockWorld 200 twoBody twoJSON) zipClient
          "https://nominatim.openstreetmap.org/search?format=jsonv2" :=
  ⟨rfl, rfl, by decide, rfl⟩

/-- C10, amended: for every client, whatever its proxy map, `makeRequest`
issues at most one request, exactly one when the URL parses; that request is a
GET of the given URL whose `User-Agent` header is the client's `UserAgent`,
sent through an `http.Client` with the client's `Timeout` and a nil
`Transport`; and `makeRequest`, `Geocode` and `Reverse` do the same for every
proxy map. -/
theorem C10_request_configuration (w : World) (g : Geocoder) (url : String) :
    (∀ ex ∈ (makeRequest w g url).1,
        ex.request.Method = "GET" ∧ ex.request.URL = url
        ∧ ex.request.Header.lookup "User-Agent" = some [g.UserAgent]
        ∧ ex.client.Timeout = g.Timeout
        ∧ ex.client.Transport = none)
    ∧ (makeRequest w g url).1.length ≤ 1
    ∧ (w.newRequestErr url = none → (makeRequest w g url).1.length = 1)
    ∧ (∀ proxies, makeRequest w { g with Proxies := proxies } url = makeRequest w g url)
    ∧ (∀ proxies query exactlyOne,
        Geocode w { g with Proxies := proxies } query exactlyOne = Geocode w g query exactlyOne)
    ∧ (∀ proxies lat lon exactlyOne,
        Reverse w { g with Proxies := proxies } lat lon exactlyOne
          = Reverse w g lat lon exactlyOne) := by
  refine ⟨?_, length_makeRequest_calls w g url, ?_, fun _ => rfl, fun _ _ _ => rfl,
    fun _ _ _ _ => rfl⟩
  · intro ex hex
    rw [mem_makeRequest_calls w g url ex hex]
    simp [getRequest, requestClient, Values.Set, Values.lookup]
  · intro hurl
    rw [makeRequest_calls]
    simp [hurl]

end Nominatim
